import Mathlib

/-!
# Verification of the linear-mcp-server adapter (src/index.ts)

Shallow embedding of the Linear MCP server's tracker-client adapter, resource
dispatcher and tool dispatcher, together with proofs about the behaviours the
specification claims.

Modelling conventions:
* JavaScript numbers are modelled as `Rat` (so non-integral inputs such as
  `2.5` are representable); JavaScript truthiness for a number is `≠ 0`
  (NaN is not modelled), for a string it is `≠ ""`, for an optional value it is
  `Option.isSome` combined with the payload's own truthiness.
* The remote Linear API is an oracle (`Oracle`): every top-level client call
  is recorded in a trace of `RemoteCall`s and its outcome is the oracle's
  answer. Lazily-resolved related fields (an issue's state / assignee / team /
  labels) are carried inside the oracle's `RawIssue` answers, so an empty
  trace means no remote traffic at all.
* Thrown JavaScript exceptions are `Except` errors of type `Thrown`;
  `JSON.stringify` is abstracted by returning the structured payload itself.
-/

namespace LinearMCP

/-- JS `a || b` for an optional number: `a` when present and truthy
(non-zero), otherwise `b`. -/
def jsNumOr (a : Option Rat) (b : Rat) : Rat :=
  match a with
  | some x => if x = 0 then b else x
  | none => b

/-- JS truthiness of an optional string: present and non-empty. -/
def strTruthy (a : Option String) : Bool :=
  match a with
  | some s => s ≠ ""
  | none => false

/-- JS truthiness of an optional number: present and non-zero. -/
def numTruthy (a : Option Rat) : Bool :=
  match a with
  | some x => x ≠ 0
  | none => false

/-- The guard `args.labels && args.labels.length > 0`: present and
non-empty. -/
def labelsTruthy (a : Option (List String)) : Bool :=
  match a with
  | some ls => ls.length > 0
  | none => false

/-- JS `s.toLowerCase()` (the priority-level names are ASCII, where it is
per-character lowering). -/
def jsToLower (s : String) : String :=
  String.mk (s.data.map Char.toLower)

/-- JS `x?.f || null` applied to an optional string: an empty string
collapses to `null` (modelled `none`). -/
def jsStrOrNull (a : Option String) : Option String :=
  match a with
  | some s => if s = "" then none else some s
  | none => none

/-! ## Argument records (the TypeScript interfaces of src/index.ts) -/

/-- `SearchIssuesArgs` (src/index.ts). -/
structure SearchIssuesArgs where
  query : Option String := none
  teamId : Option String := none
  limit : Option Rat := none
  status : Option String := none
  assigneeId : Option String := none
  labels : Option (List String) := none
  priority : Option Rat := none
  estimate : Option Rat := none
  includeArchived : Option Bool := none
  deriving Repr, DecidableEq

/-- `CreateIssueArgs` (src/index.ts). -/
structure CreateIssueArgs where
  title : String
  teamId : String
  description : Option String := none
  priority : Option Rat := none
  status : Option String := none
  deriving Repr, DecidableEq

/-- `UpdateIssueArgs` (src/index.ts). -/
structure UpdateIssueArgs where
  id : String
  title : Option String := none
  description : Option String := none
  priority : Option Rat := none
  status : Option String := none
  deriving Repr, DecidableEq

/-- `GetUserIssuesArgs` (src/index.ts). -/
structure GetUserIssuesArgs where
  userId : Option String := none
  includeArchived : Option Bool := none
  limit : Option Rat := none
  deriving Repr, DecidableEq

/-- `AddCommentArgs` (src/index.ts). -/
structure AddCommentArgs where
  issueId : String
  body : String
  createAsUser : Option String := none
  displayIconUrl : Option String := none
  deriving Repr, DecidableEq

/-! ## The GraphQL search filter (`buildSearchFilter`) -/

/-- One top-level key of the filter object `buildSearchFilter` constructs.
The JS object is a conjunction of its keys; each constructor records one key
with its nested shape flattened. -/
inductive FilterClause where
  /-- `or: [\x7b title: \x7b contains: q \x7d \x7d, \x7b description: \x7b contains: q \x7d \x7d]` -/
  | orTitleDescContains (q : String)
  /-- `team: \x7b id: \x7b eq: id \x7d \x7d` -/
  | teamIdEq (id : String)
  /-- `state: \x7b name: \x7b eq: s \x7d \x7d` -/
  | stateNameEq (s : String)
  /-- `assignee: \x7b id: \x7b eq: id \x7d \x7d` -/
  | assigneeIdEq (id : String)
  /-- `labels: \x7b some: \x7b name: \x7b in: ns \x7d \x7d \x7d` -/
  | labelsNameIn (ns : List String)
  /-- `priority: \x7b eq: p \x7d` -/
  | priorityEq (p : Rat)
  /-- `estimate: \x7b eq: e \x7d` -/
  | estimateEq (e : Rat)
  deriving Repr, DecidableEq

/-- `buildSearchFilter` (src/index.ts, lines 345-384): each guarded
assignment of the source contributes at most one clause, in source order;
the guards are JS truthiness tests, so an empty string, an empty label list,
or the number `0` is skipped exactly like an absent field. -/
def buildSearchFilter (args : SearchIssuesArgs) : List FilterClause :=
  (if strTruthy args.query then [.orTitleDescContains (args.query.getD "")] else [])
  ++ (if strTruthy args.teamId then [.teamIdEq (args.teamId.getD "")] else [])
  ++ (if strTruthy args.status then [.stateNameEq (args.status.getD "")] else [])
  ++ (if strTruthy args.assigneeId then [.assigneeIdEq (args.assigneeId.getD "")] else [])
  ++ (if labelsTruthy args.labels then [.labelsNameIn (args.labels.getD [])] else [])
  ++ (if numTruthy args.priority then [.priorityEq (args.priority.getD 0)] else [])
  ++ (if numTruthy args.estimate then [.estimateEq (args.estimate.getD 0)] else [])

/-- The argument object passed to `client.issues` — filter, page size and
archived toggle (and, for `listIssues`, the explicit ordering). -/
structure IssuesQuery where
  filter : List FilterClause
  first : Rat
  includeArchived : Option Bool := none
  orderBy : Option String := none
  deriving Repr, DecidableEq

/-- The remote query issued by `searchIssues` (src/index.ts, lines 178-183):
`first` is `args.limit || 10`. -/
def searchIssuesQuery (args : SearchIssuesArgs) : IssuesQuery :=
  { filter := buildSearchFilter args
    first := jsNumOr args.limit 10
    includeArchived := args.includeArchived
    orderBy := none }

/-! ## Raw remote entities (what the Linear SDK hands back, with the
lazily-resolved related fields already carried inline) -/

/-- A remote issue; `stateName` / `assigneeName` / `teamName` / `labelNames`
are the values the per-item related-field fetches resolve to. -/
structure RawIssue where
  id : String
  identifier : String
  title : String
  description : Option String := none
  priority : Option Rat := none
  estimate : Option Rat := none
  stateName : Option String := none
  assigneeName : Option String := none
  teamName : Option String := none
  labelNames : List String := []
  url : String
  deriving Repr, DecidableEq

/-- A remote user (also the authenticated viewer). -/
structure RawUser where
  id : String
  name : String := ""
  email : String := ""
  admin : Bool := false
  active : Bool := true
  deriving Repr, DecidableEq

/-- A remote team. -/
structure RawTeam where
  id : String
  name : String := ""
  key : String := ""
  deriving Repr, DecidableEq

/-- A remote organization. -/
structure RawOrg where
  id : String
  name : String := ""
  urlKey : String := ""
  deriving Repr, DecidableEq

/-- A remote comment; `issue` is its lazily-resolved parent issue. -/
structure RawComment where
  url : String
  issue : Option RawIssue := none
  deriving Repr, DecidableEq

/-- One field-level schema violation (a zod issue: its `path` and
`message`). -/
structure Violation where
  path : List String
  message : String
  deriving Repr, DecidableEq

/-- A thrown JS exception, as the dispatcher's catch block distinguishes
them: a `z.ZodError`, an error carrying a `response` property (a remote API
error), or any other `Error` (only its message matters). -/
inductive Thrown where
  | zod (errors : List Violation)
  | withResponse (message : String) (status : Option Rat) (data : Option String)
  | plain (message : String)
  deriving Repr, DecidableEq

/-- The string a thrown error interpolates to in a template literal
(abstracted: only the message is kept). -/
def Thrown.describe : Thrown → String
  | .zod _ => "ZodError"
  | .withResponse m _ _ => m
  | .plain m => m

/-- The payload handed to `client.createIssue`: note the caller's `status`
lands in the `stateId` field. -/
structure IssueCreateInput where
  title : String
  teamId : String
  description : Option String := none
  priority : Option Rat := none
  stateId : Option String := none
  deriving Repr, DecidableEq

/-- The payload handed to `issue.update`: note the caller's `status` lands
in the `stateId` field. -/
structure IssueUpdateInput where
  title : Option String := none
  description : Option String := none
  priority : Option Rat := none
  stateId : Option String := none
  deriving Repr, DecidableEq

/-- The payload handed to `client.createComment`. -/
structure CommentCreateInput where
  issueId : String
  body : String
  createAsUser : Option String := none
  displayIconUrl : Option String := none
  deriving Repr, DecidableEq

/-- One top-level remote call the adapter can issue. Related-field
resolution (an issue's state / assignee / team / labels) is carried inside
the oracle's `RawIssue` answers and issues no separate top-level call, so an
empty trace means zero remote traffic. -/
inductive RemoteCall where
  | viewer
  | viewerTeams (userId : String)
  | organization
  | orgTeams
  | orgUsers
  | issue (id : String)
  | user (id : String)
  | assignedIssues (userId : String) (first : Rat) (includeArchived : Option Bool)
  | issues (q : IssuesQuery)
  | createIssue (input : IssueCreateInput)
  | updateIssue (id : String) (input : IssueUpdateInput)
  | createComment (input : CommentCreateInput)
  | team (id : String)
  | teamIssues (teamId : String)
  deriving Repr, DecidableEq

/-- The remote Linear API as an oracle: one field per remote endpoint the
adapter uses. `Option` results model the SDK returning a nullish payload. -/
structure Oracle where
  viewerRaw : Except Thrown RawUser
  viewerTeams : String → Except Thrown (List RawTeam)
  organizationRaw : Except Thrown RawOrg
  orgTeams : Except Thrown (List RawTeam)
  orgUsers : Except Thrown (List RawUser)
  issueById : String → Except Thrown (Option RawIssue)
  userById : String → Except Thrown RawUser
  assignedIssues : String → Rat → Option Bool → Except Thrown (Option (List RawIssue))
  issuesQuery : IssuesQuery → Except Thrown (List RawIssue)
  createIssueRemote : IssueCreateInput → Except Thrown (Option RawIssue)
  updateIssueRemote : String → IssueUpdateInput → Except Thrown (Option RawIssue)
  createCommentRemote : CommentCreateInput → Except Thrown (Option RawComment)
  teamById : String → Except Thrown (Option RawTeam)
  teamIssuesOf : String → Except Thrown (List RawIssue)

/-- The observable outcome of one adapter operation: the ordered top-level
remote calls it made, the `console.error` lines it emitted, and its result
or thrown error. -/
structure Run (α : Type) where
  calls : List RemoteCall
  logs : List String := []
  result : Except Thrown α

/-! ## Tracker client adapter (`LinearMCPClient`) -/

/-- `createIssue` builds this payload from its arguments (src/index.ts,
lines 148-160): every field is passed through unchanged and `status` is sent
as the raw `stateId`. -/
def createIssueInput (args : CreateIssueArgs) : IssueCreateInput :=
  { title := args.title
    teamId := args.teamId
    description := args.description
    priority := args.priority
    stateId := args.status }

/-- `LinearMCPClient.createIssue` (src/index.ts, lines 148-160). -/
def createIssue (o : Oracle) (args : CreateIssueArgs) : Run RawIssue :=
  match o.createIssueRemote (createIssueInput args) with
  | .error e => ⟨[.createIssue (createIssueInput args)], [], .error e⟩
  | .ok none =>
    ⟨[.createIssue (createIssueInput args)], [], .error (.plain "Failed to create issue")⟩
  | .ok (some i) => ⟨[.createIssue (createIssueInput args)], [], .ok i⟩

/-- `updateIssue` builds this payload from its arguments (src/index.ts,
lines 162-176): only pass-through, `status` is sent as the raw `stateId`. -/
def updateIssueInput (args : UpdateIssueArgs) : IssueUpdateInput :=
  { title := args.title
    description := args.description
    priority := args.priority
    stateId := args.status }

/-- `LinearMCPClient.updateIssue` (src/index.ts, lines 162-176): fetch the
issue first, fail with not-found if absent, then send the update. -/
def updateIssue (o : Oracle) (args : UpdateIssueArgs) : Run RawIssue :=
  match o.issueById args.id with
  | .error e => ⟨[.issue args.id], [], .error e⟩
  | .ok none => ⟨[.issue args.id], [], .error (.plain ("Issue " ++ args.id ++ " not found"))⟩
  | .ok (some _) =>
    match o.updateIssueRemote args.id (updateIssueInput args) with
    | .error e =>
      ⟨[.issue args.id, .updateIssue args.id (updateIssueInput args)], [], .error e⟩
    | .ok none =>
      ⟨[.issue args.id, .updateIssue args.id (updateIssueInput args)], [],
        .error (.plain "Failed to update issue")⟩
    | .ok (some i) =>
      ⟨[.issue args.id, .updateIssue args.id (updateIssueInput args)], [], .ok i⟩

/-- The flattened record `searchIssues` builds per issue. -/
structure SearchIssueRec where
  id : String
  identifier : String
  title : String
  description : Option String
  priority : Option Rat
  estimate : Option Rat
  status : Option String
  assignee : Option String
  labels : List String
  url : String
  deriving Repr, DecidableEq

/-- Per-issue flattening in `searchIssues` (src/index.ts, lines 185-204):
`status` and `assignee` use `?.name || null`, so an empty name collapses to
null. -/
def flattenSearchIssue (i : RawIssue) : SearchIssueRec :=
  { id := i.id
    identifier := i.identifier
    title := i.title
    description := i.description
    priority := i.priority
    estimate := i.estimate
    status := jsStrOrNull i.stateName
    assignee := jsStrOrNull i.assigneeName
    labels := i.labelNames
    url := i.url }

/-- `LinearMCPClient.searchIssues` (src/index.ts, lines 178-207). -/
def searchIssues (o : Oracle) (args : SearchIssuesArgs) : Run (List SearchIssueRec) :=
  match o.issuesQuery (searchIssuesQuery args) with
  | .error e => ⟨[.issues (searchIssuesQuery args)], [], .error e⟩
  | .ok l => ⟨[.issues (searchIssuesQuery args)], [], .ok (l.map flattenSearchIssue)⟩

/-- The flattened record `getUserIssues` builds per issue. -/
structure UserIssueRec where
  id : String
  identifier : String
  title : String
  description : Option String
  priority : Option Rat
  status : Option String
  url : String
  deriving Repr, DecidableEq

/-- Per-issue flattening in `getUserIssues` (src/index.ts, lines 224-237). -/
def flattenUserIssue (i : RawIssue) : UserIssueRec :=
  { id := i.id
    identifier := i.identifier
    title := i.title
    description := i.description
    priority := i.priority
    status := jsStrOrNull i.stateName
    url := i.url }

/-- `LinearMCPClient.getUserIssues` (src/index.ts, lines 209-244): resolve
the user by `userId` when it is a truthy string, otherwise the viewer; fetch
`first = args.limit || 50` assigned issues; a nullish result page yields the
empty list; the catch block logs the error and re-throws it. -/
def getUserIssues (o : Oracle) (args : GetUserIssuesArgs) : Run (List UserIssueRec) :=
  let fetchUser : List RemoteCall × Except Thrown RawUser :=
    match args.userId with
    | some u => if u = "" then ([.viewer], o.viewerRaw) else ([.user u], o.userById u)
    | none => ([.viewer], o.viewerRaw)
  match fetchUser with
  | (c, .error e) => ⟨c, ["Error in getUserIssues: " ++ e.describe], .error e⟩
  | (c, .ok u) =>
    match o.assignedIssues u.id (jsNumOr args.limit 50) args.includeArchived with
    | .error e =>
      ⟨c ++ [.assignedIssues u.id (jsNumOr args.limit 50) args.includeArchived],
        ["Error in getUserIssues: " ++ e.describe], .error e⟩
    | .ok none =>
      ⟨c ++ [.assignedIssues u.id (jsNumOr args.limit 50) args.includeArchived], [], .ok []⟩
    | .ok (some l) =>
      ⟨c ++ [.assignedIssues u.id (jsNumOr args.limit 50) args.includeArchived], [],
        .ok (l.map flattenUserIssue)⟩

/-- `LinearMCPClient.addComment` (src/index.ts, lines 246-262). -/
def addComment (o : Oracle) (args : AddCommentArgs) : Run (RawComment × Option RawIssue) :=
  let input : CommentCreateInput :=
    { issueId := args.issueId
      body := args.body
      createAsUser := args.createAsUser
      displayIconUrl := args.displayIconUrl }
  match o.createCommentRemote input with
  | .error e => ⟨[.createComment input], [], .error e⟩
  | .ok none => ⟨[.createComment input], [], .error (.plain "Failed to create comment")⟩
  | .ok (some c) => ⟨[.createComment input], [], .ok (c, c.issue)⟩

/-- The flattened record `getIssue` returns (src/index.ts, lines 129-146):
plain optional chaining (`details.state?.name`), no `|| null` collapse. -/
structure IssueDetail where
  id : String
  identifier : String
  title : String
  description : Option String
  priority : Option Rat
  status : Option String
  assignee : Option String
  team : Option String
  url : String
  deriving Repr, DecidableEq

/-- `LinearMCPClient.getIssue` (src/index.ts, lines 129-146). -/
def getIssue (o : Oracle) (issueId : String) : Run IssueDetail :=
  match o.issueById issueId with
  | .error e => ⟨[.issue issueId], [], .error e⟩
  | .ok none => ⟨[.issue issueId], [], .error (.plain ("Issue " ++ issueId ++ " not found"))⟩
  | .ok (some i) =>
    ⟨[.issue issueId], [],
      .ok { id := i.id
            identifier := i.identifier
            title := i.title
            description := i.description
            priority := i.priority
            status := i.stateName
            assignee := i.assigneeName
            team := i.teamName
            url := i.url }⟩

/-- The flattened record `getTeamIssues` builds per issue (src/index.ts,
lines 264-292). -/
structure TeamIssueRec where
  id : String
  identifier : String
  title : String
  description : Option String
  priority : Option Rat
  status : Option String
  assignee : Option String
  url : String
  deriving Repr, DecidableEq

/-- `LinearMCPClient.getTeamIssues` (src/index.ts, lines 264-292). -/
def getTeamIssues (o : Oracle) (teamId : String) : Run (List TeamIssueRec) :=
  match o.teamById teamId with
  | .error e => ⟨[.team teamId], [], .error e⟩
  | .ok none => ⟨[.team teamId], [], .error (.plain ("Team " ++ teamId ++ " not found"))⟩
  | .ok (some _) =>
    match o.teamIssuesOf teamId with
    | .error e => ⟨[.team teamId, .teamIssues teamId], [], .error e⟩
    | .ok l =>
      ⟨[.team teamId, .teamIssues teamId], [],
        .ok (l.map fun i =>
          { id := i.id
            identifier := i.identifier
            title := i.title
            description := i.description
            priority := i.priority
            status := i.stateName
            assignee := i.assigneeName
            url := i.url })⟩

/-- Team summary reshaping shared by `getViewer` and `getOrganization`. -/
structure TeamInfo where
  id : String
  name : String
  key : String
  deriving Repr, DecidableEq

/-- `\x7b id, name, key \x7d` projection of a team. -/
def teamInfoOf (t : RawTeam) : TeamInfo :=
  { id := t.id, name := t.name, key := t.key }

/-- Organization summary embedded in `getViewer`'s result. -/
structure OrgInfo where
  id : String
  name : String
  urlKey : String
  deriving Repr, DecidableEq

/-- `getViewer`'s result shape (src/index.ts, lines 294-317). -/
structure ViewerInfo where
  id : String
  name : String
  email : String
  admin : Bool
  teams : List TeamInfo
  organization : OrgInfo
  deriving Repr, DecidableEq

/-- `LinearMCPClient.getViewer` (src/index.ts, lines 294-317): fetch the
viewer, then the viewer's teams and the organization (a `Promise.all`; a
rejection of either propagates — the model reports the first-listed one). -/
def getViewer (o : Oracle) : Run ViewerInfo :=
  match o.viewerRaw with
  | .error e => ⟨[.viewer], [], .error e⟩
  | .ok v =>
    match o.viewerTeams v.id, o.organizationRaw with
    | .error e, _ => ⟨[.viewer, .viewerTeams v.id, .organization], [], .error e⟩
    | .ok _, .error e => ⟨[.viewer, .viewerTeams v.id, .organization], [], .error e⟩
    | .ok ts, .ok org =>
      ⟨[.viewer, .viewerTeams v.id, .organization], [],
        .ok { id := v.id
              name := v.name
              email := v.email
              admin := v.admin
              teams := ts.map teamInfoOf
              organization := { id := org.id, name := org.name, urlKey := org.urlKey } }⟩

/-- User summary embedded in `getOrganization`'s result. -/
structure UserInfo where
  id : String
  name : String
  email : String
  admin : Bool
  active : Bool
  deriving Repr, DecidableEq

/-- `getOrganization`'s result shape (src/index.ts, lines 319-343). -/
structure OrgFull where
  id : String
  name : String
  urlKey : String
  teams : List TeamInfo
  users : List UserInfo
  deriving Repr, DecidableEq

/-- `LinearMCPClient.getOrganization` (src/index.ts, lines 319-343). -/
def getOrganization (o : Oracle) : Run OrgFull :=
  match o.organizationRaw with
  | .error e => ⟨[.organization], [], .error e⟩
  | .ok org =>
    match o.orgTeams, o.orgUsers with
    | .error e, _ => ⟨[.organization, .orgTeams, .orgUsers], [], .error e⟩
    | .ok _, .error e => ⟨[.organization, .orgTeams, .orgUsers], [], .error e⟩
    | .ok ts, .ok us =>
      ⟨[.organization, .orgTeams, .orgUsers], [],
        .ok { id := org.id
              name := org.name
              urlKey := org.urlKey
              teams := ts.map teamInfoOf
              users := us.map fun u =>
                { id := u.id, name := u.name, email := u.email
                  admin := u.admin, active := u.active } }⟩

/-- Metadata block of each `listIssues` summary. -/
structure IssueSummaryMeta where
  identifier : String
  priority : Option Rat
  status : Option String
  assignee : Option String
  team : Option String
  deriving Repr, DecidableEq

/-- One `listIssues` summary (src/index.ts, lines 101-127). -/
structure IssueSummary where
  uri : String
  mimeType : String
  name : String
  description : String
  metadata : IssueSummaryMeta
  deriving Repr, DecidableEq

/-- The query `listIssues` sends: no filter, `first: 50`,
`orderBy: PaginationOrderBy.UpdatedAt` (the 50 most recently updated). -/
def listIssuesQuery : IssuesQuery :=
  { filter := [], first := 50, includeArchived := none, orderBy := some "updatedAt" }

/-- Per-issue summary built by `listIssues` (src/index.ts, lines 107-124). -/
def issueSummaryOf (i : RawIssue) : IssueSummary :=
  { uri := "linear-issue://" ++ i.id
    mimeType := "application/json"
    name := i.title
    description := "Linear issue " ++ i.identifier ++ ": " ++ i.title
    metadata :=
      { identifier := i.identifier
        priority := i.priority
        status := i.stateName
        assignee := i.assigneeName
        team := i.teamName } }

/-- `LinearMCPClient.listIssues` (src/index.ts, lines 101-127). -/
def listIssues (o : Oracle) : Run (List IssueSummary) :=
  match o.issuesQuery listIssuesQuery with
  | .error e => ⟨[.issues listIssuesQuery], [], .error e⟩
  | .ok l => ⟨[.issues listIssuesQuery], [], .ok (l.map issueSummaryOf)⟩

/-! ## Resource dispatcher (`ReadResourceRequestSchema` handler) -/

/-- Sequencing of two traced operations: on error the second never runs. -/
def Run.bind {α β : Type} (r : Run α) (f : α → Run β) : Run β :=
  match r.result with
  | .error e => ⟨r.calls, r.logs, .error e⟩
  | .ok a =>
    let s := f a
    ⟨r.calls ++ s.calls, r.logs ++ s.logs, s.result⟩

/-- Post-processing of a traced operation's successful result. -/
def Run.map {α β : Type} (f : α → β) (r : Run α) : Run β :=
  ⟨r.calls, r.logs, r.result.map f⟩

/-- The embedding of `uri.match(/^([^:]+):\/\/(.*)/)` on the character
list of the URI: the scheme is the non-empty run of non-colon characters
before the first colon, which must be immediately followed by `//`; the
path is everything after (URIs are taken newline-free, where `.*` and
"rest of the string" coincide). -/
def schemeSplit : List Char → Option (List Char × List Char)
  | [] => none
  | c :: rest =>
    if c = ':' then none
    else
      match rest with
      | ':' :: '/' :: '/' :: path => some ([c], path)
      | _ => (schemeSplit rest).map fun sp => (c :: sp.1, sp.2)

/-- The structured stand-in for the `JSON.stringify`-ed text of one
resource response. -/
inductive Payload where
  | organization (o : OrgFull)
  | viewer (v : ViewerInfo)
  | userIssues (l : List UserIssueRec)
  | searchResults (l : List SearchIssueRec)
  | recentIssues (l : List IssueSummary)
  | issue (i : IssueDetail)
  | teamIssues (l : List TeamIssueRec)
  deriving Repr, DecidableEq

/-- One element of the `contents` array a resource read returns. -/
structure Contents where
  uri : String
  mimeType : String
  payload : Payload
  deriving Repr, DecidableEq

/-- The `priorityMap` lookup table of the `linear-priority` branch
(src/index.ts, lines 1055-1061). -/
def priorityMap (s : String) : Option Rat :=
  if s = "urgent" then some 1
  else if s = "high" then some 2
  else if s = "medium" then some 3
  else if s = "low" then some 4
  else if s = "none" then some 0
  else none

/-- The body of the `ReadResourceRequestSchema` handler after URI parsing
(src/index.ts, lines 828-1078): the scheme selects the branch, the
remainder is the path parameter, unknown schemes fall through to the
unsupported-resource error. -/
def dispatchResource (o : Oracle) (uri protocol path : String) : Run Contents :=
  if protocol = "linear-organization" then
      (getOrganization o).map fun org =>
        ⟨"linear-organization://", "application/json", .organization org⟩
    else if protocol = "linear-viewer" then
      (getViewer o).map fun v =>
        ⟨"linear-viewer://", "application/json", .viewer v⟩
    else if protocol = "linear-my-issues" then
      (getUserIssues o { userId := none }).map fun l =>
        ⟨"linear-my-issues://", "application/json", .userIssues l⟩
    else if protocol = "linear-my-backlog" then
      (getViewer o).bind fun v =>
        (searchIssues o { assigneeId := some v.id, status := some "Backlog" }).map fun l =>
          ⟨"linear-my-backlog://", "application/json", .searchResults l⟩
    else if protocol = "linear-my-planned" then
      (getViewer o).bind fun v =>
        (searchIssues o
            { assigneeId := some v.id, status := some "Planned this Cycle" }).map fun l =>
          ⟨"linear-my-planned://", "application/json", .searchResults l⟩
    else if protocol = "linear-my-in-progress" then
      (getViewer o).bind fun v =>
        (searchIssues o { assigneeId := some v.id, status := some "In Progress" }).map fun l =>
          ⟨"linear-my-in-progress://", "application/json", .searchResults l⟩
    else if protocol = "linear-my-under-review" then
      (getViewer o).bind fun v =>
        (searchIssues o { assigneeId := some v.id, status := some "Under Review" }).map fun l =>
          ⟨"linear-my-under-review://", "application/json", .searchResults l⟩
    else if protocol = "linear-my-high-priority" then
      (getViewer o).bind fun v =>
        (searchIssues o { assigneeId := some v.id, priority := some 1 }).bind fun urgent =>
          (searchIssues o { assigneeId := some v.id, priority := some 2 }).map fun high =>
            ⟨"linear-my-high-priority://", "application/json", .searchResults (urgent ++ high)⟩
    else if protocol = "linear-recent-issues" then
      (listIssues o).map fun l =>
        ⟨"linear-recent-issues://", "application/json", .recentIssues l⟩
    else if protocol = "linear-issue" then
      if path = "" then
        ⟨[], [], .error (.plain "Issue ID is required for linear-issue resource")⟩
      else
        (getIssue o path).map fun i =>
          ⟨"linear-issue://" ++ path, "application/json", .issue i⟩
    else if protocol = "linear-team" then
      if path = "" then
        ⟨[], [], .error (.plain "Team ID is required for linear-team resource")⟩
      else
        (getTeamIssues o path).map fun l =>
          ⟨"linear-team://" ++ path, "application/json", .teamIssues l⟩
    else if protocol = "linear-user" then
      if path = "" then
        ⟨[], [], .error (.plain "User ID is required for linear-user resource")⟩
      else
        (getUserIssues o
            { userId := if path = "me" then none else some path }).map fun l =>
          ⟨"linear-user://" ++ path, "application/json", .userIssues l⟩
    else if protocol = "linear-search" then
      if path = "" then
        ⟨[], [], .error (.plain "Search query is required for linear-search resource")⟩
      else
        (searchIssues o { query := some path }).map fun l =>
          ⟨"linear-search://" ++ path, "application/json", .searchResults l⟩
    else if protocol = "linear-priority" then
      if path = "" then
        ⟨[], [], .error (.plain "Priority level is required for linear-priority resource")⟩
      else
        match priorityMap (jsToLower path) with
        | none =>
          ⟨[], [],
            .error (.plain ("Invalid priority level: " ++ path
              ++ ". Valid values are: urgent, high, medium, low, none"))⟩
        | some p =>
          (searchIssues o { priority := some p }).map fun l =>
            ⟨"linear-priority://" ++ path, "application/json", .searchResults l⟩
    else
      ⟨[], [], .error (.plain ("Unsupported resource URI: " ++ uri))⟩

/-- The `ReadResourceRequestSchema` handler (src/index.ts, lines 815-1079):
parse the scheme, then dispatch. -/
def readResource (o : Oracle) (uri : String) : Run Contents :=
  match schemeSplit uri.data with
  | none => ⟨[], [], .error (.plain ("Invalid URI format: " ++ uri))⟩
  | some sp => dispatchResource o uri (String.mk sp.1) (String.mk sp.2)

/-! ## Static catalogs -/

/-- One entry of the fixed resource catalog. -/
structure ResourceEntry where
  uri : String
  name : String
  description : String
  mimeType : String
  deriving Repr, DecidableEq

/-- The `ListResourcesRequestSchema` handler's fixed catalog of
parameterless resources (src/index.ts, lines 748-813). -/
def listResourcesCatalog : List ResourceEntry :=
  [ { uri := "linear-viewer://", name := "Linear User Profile"
      description := "Your Linear user profile information, including teams and permissions"
      mimeType := "application/json" }
  , { uri := "linear-organization://", name := "Linear Organization"
      description := "Details about your Linear organization, including teams and settings"
      mimeType := "application/json" }
  , { uri := "linear-my-issues://", name := "My Linear Issues"
      description := "All issues currently assigned to you"
      mimeType := "application/json" }
  , { uri := "linear-my-backlog://", name := "My Backlog Issues"
      description := "Issues assigned to you in the Backlog"
      mimeType := "application/json" }
  , { uri := "linear-my-planned://", name := "My Planned Issues"
      description := "Issues assigned to you that are Planned this Cycle"
      mimeType := "application/json" }
  , { uri := "linear-my-in-progress://", name := "My In-Progress Issues"
      description := "Issues assigned to you that are currently in progress"
      mimeType := "application/json" }
  , { uri := "linear-my-under-review://", name := "My Under Review Issues"
      description := "Issues assigned to you that are under review"
      mimeType := "application/json" }
  , { uri := "linear-my-high-priority://", name := "My High Priority Issues"
      description := "High priority issues assigned to you"
      mimeType := "application/json" } ]

/-- One resource template descriptor (only the fields the claims consult). -/
structure TemplateEntry where
  uriTemplate : String
  name : String
  deriving Repr, DecidableEq

/-- The five templated resources (src/index.ts, lines 482-556). -/
def resourceTemplatesCatalog : List TemplateEntry :=
  [ { uriTemplate := "linear-issue://\x7bissueId\x7d", name := "Linear Issue" }
  , { uriTemplate := "linear-team://\x7bteamId\x7d", name := "Team Issues" }
  , { uriTemplate := "linear-user://\x7buserId\x7d", name := "User Assigned Issues" }
  , { uriTemplate := "linear-search://\x7bquery\x7d", name := "Search Linear Issues" }
  , { uriTemplate := "linear-priority://\x7blevel\x7d", name := "Issues by Priority" } ]

/-! ## Tool dispatcher (`CallToolRequestSchema` handler) -/

/-- The incoming JSON argument object of a tool call, restricted to the
keys any of the five schemas reads (zod object schemas strip unknown
keys). -/
structure RawToolArgs where
  title : Option String := none
  teamId : Option String := none
  description : Option String := none
  status : Option String := none
  id : Option String := none
  query : Option String := none
  assigneeId : Option String := none
  labels : Option (List String) := none
  priority : Option Rat := none
  estimate : Option Rat := none
  includeArchived : Option Bool := none
  limit : Option Rat := none
  userId : Option String := none
  issueId : Option String := none
  body : Option String := none
  createAsUser : Option String := none
  displayIconUrl : Option String := none
  deriving Repr, DecidableEq

/-- The zod issue produced for a missing required key. -/
def requiredStr (key : String) (v : Option String) : List Violation :=
  match v with
  | some _ => []
  | none => [⟨[key], "Required"⟩]

/-- `CreateIssueArgsSchema.parse` (src/index.ts, lines 677-683): `title`
and `teamId` required; `priority` is `z.number().min(0).max(4).optional()`
— a range check only, no integrality check. -/
def validateCreateIssue (a : RawToolArgs) : Except (List Violation) CreateIssueArgs :=
  let vs :=
    requiredStr "title" a.title ++ requiredStr "teamId" a.teamId
    ++ (match a.priority with
        | some p =>
          (if p < 0 then [⟨["priority"], "Number must be greater than or equal to 0"⟩] else [])
          ++ (if 4 < p then [⟨["priority"], "Number must be less than or equal to 4"⟩] else [])
        | none => [])
  match a.title, a.teamId with
  | some t, some tid =>
    if vs.isEmpty then
      .ok { title := t, teamId := tid, description := a.description
            priority := a.priority, status := a.status }
    else .error vs
  | _, _ => .error vs

/-- `UpdateIssueArgsSchema.parse` (src/index.ts, lines 685-691): only `id`
is required; `priority` is a bare `z.number().optional()` — no range and no
integrality check at all. -/
def validateUpdateIssue (a : RawToolArgs) : Except (List Violation) UpdateIssueArgs :=
  match a.id with
  | some i =>
    .ok { id := i, title := a.title, description := a.description
          priority := a.priority, status := a.status }
  | none => .error [⟨["id"], "Required"⟩]

/-- `SearchIssuesArgsSchema.parse` (src/index.ts, lines 693-703): every
field optional, no constraints. -/
def validateSearchIssues (a : RawToolArgs) : Except (List Violation) SearchIssuesArgs :=
  .ok { query := a.query, teamId := a.teamId, limit := a.limit, status := a.status
        assigneeId := a.assigneeId, labels := a.labels, priority := a.priority
        estimate := a.estimate, includeArchived := a.includeArchived }

/-- `GetUserIssuesArgsSchema.parse` (src/index.ts, lines 705-709). -/
def validateGetUserIssues (a : RawToolArgs) : Except (List Violation) GetUserIssuesArgs :=
  .ok { userId := a.userId, includeArchived := a.includeArchived, limit := a.limit }

/-- `AddCommentArgsSchema.parse` (src/index.ts, lines 711-716): `issueId`
and `body` required. -/
def validateAddComment (a : RawToolArgs) : Except (List Violation) AddCommentArgs :=
  let vs := requiredStr "issueId" a.issueId ++ requiredStr "body" a.body
  match a.issueId, a.body with
  | some i, some b =>
    .ok { issueId := i, body := b, createAsUser := a.createAsUser
          displayIconUrl := a.displayIconUrl }
  | _, _ => .error vs

/-- `${issue.priority || 'None'}` (numeral rendering abstracted to
`toString`). -/
def numOrNoneText (p : Option Rat) : String :=
  match p with
  | some q => if q = 0 then "None" else toString q
  | none => "None"

/-- `${issue.status || 'None'}`. -/
def strOrNoneText (s : Option String) : String :=
  match s with
  | some t => if t = "" then "None" else t
  | none => "None"

/-- One line of the `linear_search_issues` result text. -/
def searchIssueLine (i : SearchIssueRec) : String :=
  "- " ++ i.identifier ++ ": " ++ i.title
    ++ "\n  Priority: " ++ numOrNoneText i.priority
    ++ "\n  Status: " ++ strOrNoneText i.status
    ++ "\n  " ++ i.url

/-- One line of the `linear_get_user_issues` result text. -/
def userIssueLine (i : UserIssueRec) : String :=
  "- " ++ i.identifier ++ ": " ++ i.title
    ++ "\n  Priority: " ++ numOrNoneText i.priority
    ++ "\n  Status: " ++ strOrNoneText i.status
    ++ "\n  " ++ i.url

/-- `${issue?.identifier}` in the add-comment summary. -/
def optIdentText (i : Option RawIssue) : String :=
  match i with
  | some x => x.identifier
  | none => "undefined"

/-- The body of the `CallToolRequestSchema` handler before its catch block
(src/index.ts, lines 1278-1351): missing arguments throw, the tool name
selects a schema + adapter call, an unknown name throws. -/
def dispatchTool (o : Oracle) (name : String) (args : Option RawToolArgs) : Run String :=
  match args with
  | none => ⟨[], [], .error (.plain "Missing arguments")⟩
  | some a =>
    if name = "linear_create_issue" then
      match validateCreateIssue a with
      | .error vs => ⟨[], [], .error (.zod vs)⟩
      | .ok v =>
        (createIssue o v).map fun i =>
          "Created issue " ++ i.identifier ++ ": " ++ i.title ++ "\nURL: " ++ i.url
    else if name = "linear_update_issue" then
      match validateUpdateIssue a with
      | .error vs => ⟨[], [], .error (.zod vs)⟩
      | .ok v =>
        (updateIssue o v).map fun i =>
          "Updated issue " ++ i.identifier ++ "\nURL: " ++ i.url
    else if name = "linear_search_issues" then
      match validateSearchIssues a with
      | .error vs => ⟨[], [], .error (.zod vs)⟩
      | .ok v =>
        (searchIssues o v).map fun issues =>
          "Found " ++ toString issues.length ++ " issues:\n"
            ++ String.intercalate "\n" (issues.map searchIssueLine)
    else if name = "linear_get_user_issues" then
      match validateGetUserIssues a with
      | .error vs => ⟨[], [], .error (.zod vs)⟩
      | .ok v =>
        (getUserIssues o v).map fun issues =>
          "Found " ++ toString issues.length ++ " issues:\n"
            ++ String.intercalate "\n" (issues.map userIssueLine)
    else if name = "linear_add_comment" then
      match validateAddComment a with
      | .error vs => ⟨[], [], .error (.zod vs)⟩
      | .ok v =>
        (addComment o v).map fun ci =>
          "Added comment to issue " ++ optIdentText ci.2 ++ "\nURL: " ++ ci.1.url
    else
      ⟨[], [], .error (.plain ("Unknown tool: " ++ name))⟩

/-- A formatted violation as the catch block re-shapes it: path, message
and the literal code `VALIDATION_ERROR`. -/
structure FormattedViolation where
  path : List String
  message : String
  code : String
  deriving Repr, DecidableEq

/-- `err => (\x7b path: err.path, message: err.message, code:
'VALIDATION_ERROR' \x7d)`. -/
def formatViolation (v : Violation) : FormattedViolation :=
  ⟨v.path, v.message, "VALIDATION_ERROR"⟩

/-- The response envelope a tool call produces, one constructor per shape
the handler can return: the success text; the validation-error envelope
(carries `metadata.error = true` plus the formatted violation list); the
`linear_api_error` envelope (an `error` object with the remote status and
data); the unknown-error envelope (carries `metadata.error = true`). -/
inductive ToolResponse where
  | success (text : String)
  | validationError (details : List FormattedViolation)
  | linearApiError (message : String) (status : Option Rat) (data : Option String)
  | unknownError (message : String)
  deriving Repr, DecidableEq

/-- Whether the envelope sets `metadata.error = true` (the validation-error
and unknown-error shapes do; the `linear_api_error` shape instead nests
everything under an `error` key). -/
def ToolResponse.metadataErrorFlag : ToolResponse → Bool
  | .validationError _ => true
  | .unknownError _ => true
  | _ => false

/-- Whether the envelope is an error shape rather than a success payload. -/
def ToolResponse.isErrorShaped : ToolResponse → Bool
  | .success _ => false
  | _ => true

/-- The whole `CallToolRequestSchema` handler (src/index.ts, lines
1278-1414): run the dispatch and convert any thrown error into the matching
error envelope — a total function, so no request ever escapes as an
exception (the catch block's own `console.error` line is not modelled). -/
def handleToolCall (o : Oracle) (name : String) (args : Option RawToolArgs) :
    List RemoteCall × ToolResponse :=
  let r := dispatchTool o name args
  (r.calls,
    match r.result with
    | .ok t => .success t
    | .error (.zod es) => .validationError (es.map formatViolation)
    | .error (.withResponse m s d) => .linearApiError m s d
    | .error (.plain m) => .unknownError m)

/-! ## Auxiliary definitions for the verification -/

/-- The URI schemes the `readResource` dispatcher recognizes (the guard
strings of its if-chain, in source order). -/
def recognizedSchemes : List String :=
  [ "linear-organization", "linear-viewer", "linear-my-issues", "linear-my-backlog"
  , "linear-my-planned", "linear-my-in-progress", "linear-my-under-review"
  , "linear-my-high-priority", "linear-recent-issues", "linear-issue", "linear-team"
  , "linear-user", "linear-search", "linear-priority" ]

/-- Written from the (amended) spec's words: a clause is justified exactly
when the matching argument field was supplied with a truthy value — a
non-empty query string, a non-empty id/status string, a non-empty label
list, a non-zero priority or estimate. -/
def clauseSuppliedAndTruthy (args : SearchIssuesArgs) : FilterClause → Prop
  | .orTitleDescContains q => args.query = some q ∧ q ≠ ""
  | .teamIdEq t => args.teamId = some t ∧ t ≠ ""
  | .stateNameEq s => args.status = some s ∧ s ≠ ""
  | .assigneeIdEq i => args.assigneeId = some i ∧ i ≠ ""
  | .labelsNameIn ls => args.labels = some ls ∧ ls ≠ []
  | .priorityEq p => args.priority = some p ∧ p ≠ 0
  | .estimateEq e => args.estimate = some e ∧ e ≠ 0

/-- The rational 5/2, built without `Rat` division so that proofs evaluate
in the kernel. -/
def twoPointFive : Rat := Rat.mk' 5 2 (by norm_num) (by norm_num)

/-- A sample remote issue for concrete evaluations. -/
def sampleIssue : RawIssue :=
  { id := "iss-1", identifier := "ENG-1", title := "T", url := "u" }

/-- A sample remote user (also the viewer) for concrete evaluations. -/
def sampleUser : RawUser := { id := "user-1" }

/-- A benign oracle answering every endpoint with fixed sample data. -/
def o0 : Oracle :=
  { viewerRaw := .ok sampleUser
    viewerTeams := fun _ => .ok []
    organizationRaw := .ok { id := "org-1" }
    orgTeams := .ok []
    orgUsers := .ok []
    issueById := fun _ => .ok (some sampleIssue)
    userById := fun _ => .ok sampleUser
    assignedIssues := fun _ _ _ => .ok (some [sampleIssue])
    issuesQuery := fun _ => .ok [sampleIssue]
    createIssueRemote := fun _ => .ok (some sampleIssue)
    updateIssueRemote := fun _ _ => .ok (some sampleIssue)
    createCommentRemote := fun _ => .ok (some { url := "cu", issue := some sampleIssue })
    teamById := fun _ => .ok (some { id := "team-1" })
    teamIssuesOf := fun _ => .ok [sampleIssue] }

/-- The benign oracle with a failing viewer endpoint (a remote API error
carrying a response). -/
def oViewerFail : Oracle :=
  { o0 with viewerRaw := .error (.withResponse "boom" (some 500) none) }

/-- Written from the spec's words: the effective query of a "my-status"
bucket — exactly the two clauses status = bucket name and
assigneeId = viewer id, at the default page size. -/
def bucketQuerySpec (vid s : String) : IssuesQuery :=
  { filter := [.stateNameEq s, .assigneeIdEq vid]
    first := 10, includeArchived := none, orderBy := none }

/-- Written from the spec's words: one of the two searches backing the
"my high priority" bucket — assigneeId = viewer id and priority = p. -/
def highPriorityQuerySpec (vid : String) (p : Rat) : IssuesQuery :=
  { filter := [.assigneeIdEq vid, .priorityEq p]
    first := 10, includeArchived := none, orderBy := none }

/-- The `ViewerInfo` record `getViewer` produces under the oracle `o0`. -/
def v0 : ViewerInfo :=
  { id := "user-1", name := "", email := "", admin := false, teams := []
    organization := { id := "org-1", name := "", urlKey := "" } }

/-! ## Theorems -/

/-- Membership in a conditional singleton. -/
theorem mem_if_singleton {α : Type} (a x : α) (c : Prop) [Decidable c] :
    a ∈ (if c then [x] else ([] : List α)) ↔ c ∧ a = x := by
  split <;> simp_all

/-- C1, counterexample: the claim says every present `priority` appears as
an equality clause, but a supplied `priority` of `0` is omitted entirely —
`buildSearchFilter` guards it with JS truthiness (`if (args.priority)`), and
`0` is falsy. -/
theorem buildSearchFilter_present_priority_zero_omitted :
    ({ priority := some 0 } : SearchIssuesArgs).priority = some 0 ∧
    buildSearchFilter { priority := some 0 } = [] :=
  ⟨rfl, rfl⟩

/-- C1 (amended): `buildSearchFilter` produces a conjunctive filter whose
clauses are exactly the supplied-and-truthy fields — a non-empty `query`
yields the title-OR-description disjunction, a non-empty `labels` list
yields the label-name-in-set clause, and each of
`teamId`/`status`/`assigneeId`/`priority`/`estimate` appears as its equality
clause exactly when it is present and truthy (non-empty string / non-zero
number); absent fields and present-but-falsy fields (empty string, empty
list, the number `0`) are omitted entirely. `searchIssues({})` sends the
empty filter object capped at the default limit of 10. -/
theorem buildSearchFilter_exact (args : SearchIssuesArgs) (c : FilterClause) :
    (c ∈ buildSearchFilter args ↔ clauseSuppliedAndTruthy args c) ∧
    searchIssuesQuery {} =
      { filter := [], first := 10, includeArchived := none, orderBy := none } := by
  refine ⟨?_, rfl⟩
  cases c
  case orTitleDescContains q =>
    cases hq : args.query <;>
      simp [buildSearchFilter, clauseSuppliedAndTruthy, strTruthy, numTruthy, labelsTruthy,
        List.mem_append, mem_if_singleton, hq] <;> aesop
  case teamIdEq t =>
    cases ht : args.teamId <;>
      simp [buildSearchFilter, clauseSuppliedAndTruthy, strTruthy, numTruthy, labelsTruthy,
        List.mem_append, mem_if_singleton, ht] <;> aesop
  case stateNameEq s =>
    cases hs : args.status <;>
      simp [buildSearchFilter, clauseSuppliedAndTruthy, strTruthy, numTruthy, labelsTruthy,
        List.mem_append, mem_if_singleton, hs] <;> aesop
  case assigneeIdEq i =>
    cases hi : args.assigneeId <;>
      simp [buildSearchFilter, clauseSuppliedAndTruthy, strTruthy, numTruthy, labelsTruthy,
        List.mem_append, mem_if_singleton, hi] <;> aesop
  case labelsNameIn ls =>
    cases hl : args.labels <;>
      simp [buildSearchFilter, clauseSuppliedAndTruthy, strTruthy, numTruthy, labelsTruthy,
        List.mem_append, mem_if_singleton, hl, List.length_pos] <;> aesop
  case priorityEq p =>
    cases hp : args.priority <;>
      simp [buildSearchFilter, clauseSuppliedAndTruthy, strTruthy, numTruthy, labelsTruthy,
        List.mem_append, mem_if_singleton, hp] <;> aesop
  case estimateEq e =>
    cases he : args.estimate <;>
      simp [buildSearchFilter, clauseSuppliedAndTruthy, strTruthy, numTruthy, labelsTruthy,
        List.mem_append, mem_if_singleton, he] <;> aesop

/-- C4 (confirmed): `createIssue` and `updateIssue` pass a supplied
`status` to the remote API unchanged as the raw `stateId` field, and the
only remote calls they make are the create call itself (resp. the
issue-fetch followed by the update) — no workflow-state lookup or
validation call of any kind precedes the write (no such call constructor
even exists in the adapter's call vocabulary). -/
theorem status_passed_through_as_stateId (o : Oracle) (a : CreateIssueArgs)
    (b : UpdateIssueArgs) :
    (createIssueInput a).stateId = a.status ∧
    (createIssue o a).calls = [.createIssue (createIssueInput a)] ∧
    (updateIssueInput b).stateId = b.status ∧
    ((updateIssue o b).calls = [.issue b.id] ∨
      (updateIssue o b).calls = [.issue b.id, .updateIssue b.id (updateIssueInput b)]) := by
  refine ⟨rfl, ?_, rfl, ?_⟩
  · rcases h : o.createIssueRemote (createIssueInput a) with e | (_ | i) <;>
      simp [createIssue, h]
  · rcases h : o.issueById b.id with e | (_ | i)
    · left; simp [updateIssue, h]
    · left; simp [updateIssue, h]
    · rcases h2 : o.updateIssueRemote b.id (updateIssueInput b) with e2 | (_ | i2) <;>
        (right; simp [updateIssue, h, h2])

/-- C8 (confirmed): for each templated scheme, a URI with an empty path
segment after `://` fails with a descriptive error naming the missing
parameter, with an empty remote-call trace (no remote call attempted). -/
theorem templated_empty_path_errors (o : Oracle) :
    readResource o "linear-issue://" =
      ⟨[], [], .error (.plain "Issue ID is required for linear-issue resource")⟩ ∧
    readResource o "linear-team://" =
      ⟨[], [], .error (.plain "Team ID is required for linear-team resource")⟩ ∧
    readResource o "linear-user://" =
      ⟨[], [], .error (.plain "User ID is required for linear-user resource")⟩ ∧
    readResource o "linear-search://" =
      ⟨[], [], .error (.plain "Search query is required for linear-search resource")⟩ ∧
    readResource o "linear-priority://" =
      ⟨[], [], .error (.plain "Priority level is required for linear-priority resource")⟩ :=
  ⟨rfl, rfl, rfl, rfl, rfl⟩

/-- C3, counterexample: the claim says both tools reject a priority that is
outside 0–4 or not an integer, but `linear_create_issue` accepts the
non-integer 5/2 (its schema has `.min(0).max(4)` and no integrality check)
and `linear_update_issue` accepts 7 (its schema is a bare `z.number()` with
no range at all). -/
theorem priority_schema_counterexample :
    validateCreateIssue { title := some "T", teamId := some "X", priority := some twoPointFive } =
      .ok { title := "T", teamId := "X", description := none,
            priority := some twoPointFive, status := none } ∧
    twoPointFive.den ≠ 1 ∧
    validateUpdateIssue { id := some "I", priority := some 7 } =
      .ok { id := "I", title := none, description := none, priority := some 7, status := none } :=
  ⟨rfl, by decide, rfl⟩

/-- C3 (amended): for `linear_create_issue` a supplied priority must be a
number in the range 0–4 (integrality is not checked): out-of-range values
are rejected by schema validation and in-range values pass through; for
`linear_update_issue` a supplied priority is not constrained at all; and in
both tools a validation failure produces an empty remote-call trace — the
rejection happens before any remote call. -/
theorem priority_validation_spec (o : Oracle) (a : RawToolArgs) (p : Rat)
    (hp : a.priority = some p) :
    ((p < 0 ∨ 4 < p) → (validateCreateIssue a).isOk = false) ∧
    (∀ r, validateCreateIssue a = .ok r → (0 ≤ p ∧ p ≤ 4) ∧ r.priority = some p) ∧
    (∀ i, a.id = some i →
      validateUpdateIssue a =
        .ok { id := i, title := a.title, description := a.description,
              priority := some p, status := a.status }) ∧
    (∀ vs, validateCreateIssue a = .error vs →
      (dispatchTool o "linear_create_issue" (some a)).calls = []) ∧
    (∀ vs, validateUpdateIssue a = .error vs →
      (dispatchTool o "linear_update_issue" (some a)).calls = []) := by
  have hne : (p < 0 ∨ 4 < p) →
      ((if p < 0 then [(⟨["priority"], "Number must be greater than or equal to 0"⟩ : Violation)] else [])
        ++ (if 4 < p then [(⟨["priority"], "Number must be less than or equal to 4"⟩ : Violation)] else [])) ≠ [] := by
    rintro (h | h)
    · simp [h]
    · by_cases h0 : p < 0 <;> simp [h, h0]
  refine ⟨?_, ?_, ?_, ?_, ?_⟩
  · intro hrange
    unfold validateCreateIssue
    rw [hp]
    rcases a.title with _ | t <;> rcases a.teamId with _ | tid <;>
      simp [requiredStr, Except.isOk, Except.toBool, hne hrange]
  · intro r hr
    unfold validateCreateIssue at hr
    rw [hp] at hr
    rcases ht : a.title with _ | t <;> rw [ht] at hr
    · simp [requiredStr] at hr
    · rcases htid : a.teamId with _ | tid <;> rw [htid] at hr
      · simp [requiredStr] at hr
      · simp [requiredStr] at hr
        split_ifs at hr with hempty
        simp at hr
        exact ⟨hempty, by rw [← hr]⟩
  · intro i hi
    simp [validateUpdateIssue, hi, hp]
  · intro vs h
    simp [dispatchTool, h]
  · intro vs h
    simp [dispatchTool, h]

/-- Witness for the amended C3 theorem: priority 7 on create, rejected. -/
theorem priority_validation_spec_witness :
    (validateCreateIssue { title := some "T", teamId := some "X", priority := some 7 }).isOk
      = false :=
  (priority_validation_spec o0
    { title := some "T", teamId := some "X", priority := some 7 } 7 rfl).1
    (Or.inr (by norm_num))

/-- C2, counterexample: the claim says the resolved number is used as the
priority filter of the issued search, but for the level `none` (resolved
number 0) the issued search's filter contains no priority clause at all —
`buildSearchFilter` drops the falsy 0. -/
theorem priority_none_counterexample :
    priorityMap (jsToLower "none") = some 0 ∧
    (readResource o0 "linear-priority://none").calls =
      [.issues { filter := [], first := 10, includeArchived := none, orderBy := none }] :=
  ⟨rfl, rfl⟩

/-- `searchIssues` always issues exactly its one remote query. -/
theorem searchIssues_calls (o : Oracle) (args : SearchIssuesArgs) :
    (searchIssues o args).calls = [.issues (searchIssuesQuery args)] := by
  rcases h : o.issuesQuery (searchIssuesQuery args) with e | l <;> simp [searchIssues, h]

/-- Parsing a `linear-priority://` URI selects the priority branch. -/
theorem readResource_priority_eq (o : Oracle) (level : String) :
    readResource o ("linear-priority://" ++ level) =
      dispatchResource o ("linear-priority://" ++ level) "linear-priority" level := rfl

/-- The priority branch of the dispatcher, isolated. -/
theorem dispatchResource_priority_eq (o : Oracle) (uri level : String) :
    dispatchResource o uri "linear-priority" level =
      if level = "" then
        ⟨[], [], .error (.plain "Priority level is required for linear-priority resource")⟩
      else
        match priorityMap (jsToLower level) with
        | none =>
          ⟨[], [], .error (.plain ("Invalid priority level: " ++ level
            ++ ". Valid values are: urgent, high, medium, low, none"))⟩
        | some p =>
          (searchIssues o { priority := some p }).map fun l =>
            ⟨"linear-priority://" ++ level, "application/json", .searchResults l⟩ := rfl

/-- C2 (amended): the level names urgent/high/medium/low/none resolve —
case-insensitively, via `toLowerCase` before the lookup — to 1/2/3/4/0, and
any other name fails with a validation error echoing the invalid value (and
no remote call); the resolved number is passed as the priority argument of
the issued search, where it appears as the priority equality clause for the
non-zero levels, but for `none` (resolved 0) the issued search carries no
priority clause at all, because the filter builder drops a falsy priority. -/
theorem priority_level_resolution (o : Oracle) (level : String) (p : Rat)
    (hne : level ≠ "") :
    (priorityMap "urgent" = some 1 ∧ priorityMap "high" = some 2 ∧
      priorityMap "medium" = some 3 ∧ priorityMap "low" = some 4 ∧
      priorityMap "none" = some 0 ∧ priorityMap "HIGH" = none) ∧
    (priorityMap (jsToLower level) = none →
      readResource o ("linear-priority://" ++ level) =
        ⟨[], [], .error (.plain ("Invalid priority level: " ++ level
          ++ ". Valid values are: urgent, high, medium, low, none"))⟩) ∧
    (priorityMap (jsToLower level) = some p →
      (readResource o ("linear-priority://" ++ level)).calls =
        [.issues { filter := if p = 0 then [] else [.priorityEq p],
                   first := 10, includeArchived := none, orderBy := none }]) := by
  refine ⟨⟨rfl, rfl, rfl, rfl, rfl, rfl⟩, ?_, ?_⟩
  · intro h
    rw [readResource_priority_eq, dispatchResource_priority_eq, if_neg hne, h]
  · intro h
    rw [readResource_priority_eq, dispatchResource_priority_eq, if_neg hne, h]
    by_cases hz : p = 0 <;>
      simp [Run.map, searchIssues_calls, searchIssuesQuery, buildSearchFilter,
        strTruthy, numTruthy, labelsTruthy, jsNumOr, hz]

/-- Witness for the amended C2 theorem: the level `HIGH` resolves (via
lower-casing) to 2 and the issued search filters on priority = 2. -/
theorem priority_level_resolution_witness :
    (readResource o0 ("linear-priority://" ++ "HIGH")).calls =
      [.issues { filter := [.priorityEq 2], first := 10,
                 includeArchived := none, orderBy := none }] := by
  have h := (priority_level_resolution o0 "HIGH" 2 (by decide)).2.2 (by decide)
  simpa using h

/-- C7 (confirmed): a resource URI that parses (has a scheme before `://`)
whose scheme is not one of the recognized ones fails with the
unsupported-resource error, with an empty remote-call trace. -/
theorem unsupported_scheme_error (o : Oracle) (uri : String) (s p : List Char)
    (hsplit : schemeSplit uri.data = some (s, p))
    (hmem : String.mk s ∉ recognizedSchemes) :
    readResource o uri =
      ⟨[], [], .error (.plain ("Unsupported resource URI: " ++ uri))⟩ := by
  have h : readResource o uri = dispatchResource o uri (String.mk s) (String.mk p) := by
    unfold readResource
    rw [hsplit]
  rw [h]
  simp only [recognizedSchemes, List.mem_cons, List.not_mem_nil, or_false, not_or] at hmem
  obtain ⟨h1, h2, h3, h4, h5, h6, h7, h8, h9, h10, h11, h12, h13, h14⟩ := hmem
  unfold dispatchResource
  rw [if_neg h1, if_neg h2, if_neg h3, if_neg h4, if_neg h5, if_neg h6, if_neg h7,
    if_neg h8, if_neg h9, if_neg h10, if_neg h11, if_neg h12, if_neg h13, if_neg h14]

/-- Witness for the C7 theorem: the unknown scheme `foo`. -/
theorem unsupported_scheme_error_witness :
    readResource o0 "foo://bar" =
      ⟨[], [], .error (.plain ("Unsupported resource URI: " ++ "foo://bar"))⟩ :=
  unsupported_scheme_error o0 "foo://bar" "foo".data "bar".data rfl (by decide)

/-- Parsing `linear-my-backlog://` selects the backlog bucket branch. -/
theorem readResource_my_backlog_eq (o : Oracle) :
    readResource o "linear-my-backlog://" =
      (getViewer o).bind fun v =>
        (searchIssues o { assigneeId := some v.id, status := some "Backlog" }).map fun l =>
          ⟨"linear-my-backlog://", "application/json", .searchResults l⟩ := rfl

/-- Parsing `linear-my-planned://` selects the planned bucket branch. -/
theorem readResource_my_planned_eq (o : Oracle) :
    readResource o "linear-my-planned://" =
      (getViewer o).bind fun v =>
        (searchIssues o
            { assigneeId := some v.id, status := some "Planned this Cycle" }).map fun l =>
          ⟨"linear-my-planned://", "application/json", .searchResults l⟩ := rfl

/-- Parsing `linear-my-in-progress://` selects the in-progress branch. -/
theorem readResource_my_in_progress_eq (o : Oracle) :
    readResource o "linear-my-in-progress://" =
      (getViewer o).bind fun v =>
        (searchIssues o { assigneeId := some v.id, status := some "In Progress" }).map fun l =>
          ⟨"linear-my-in-progress://", "application/json", .searchResults l⟩ := rfl

/-- Parsing `linear-my-under-review://` selects the under-review branch. -/
theorem readResource_my_under_review_eq (o : Oracle) :
    readResource o "linear-my-under-review://" =
      (getViewer o).bind fun v =>
        (searchIssues o { assigneeId := some v.id, status := some "Under Review" }).map fun l =>
          ⟨"linear-my-under-review://", "application/json", .searchResults l⟩ := rfl

/-- Parsing `linear-my-high-priority://` selects the two-search branch. -/
theorem readResource_my_high_priority_eq (o : Oracle) :
    readResource o "linear-my-high-priority://" =
      (getViewer o).bind fun v =>
        (searchIssues o { assigneeId := some v.id, priority := some 1 }).bind fun urgent =>
          (searchIssues o { assigneeId := some v.id, priority := some 2 }).map fun high =>
            ⟨"linear-my-high-priority://", "application/json",
              .searchResults (urgent ++ high)⟩ := rfl

/-- A bucket's `searchIssues` arguments produce exactly the two-clause
query, provided the viewer id and the status literal are non-empty. -/
theorem bucket_query_eq (vid s : String) (hid : vid ≠ "") (hs : s ≠ "") :
    searchIssuesQuery { assigneeId := some vid, status := some s } =
      bucketQuerySpec vid s := by
  simp [searchIssuesQuery, bucketQuerySpec, buildSearchFilter, strTruthy, numTruthy,
    labelsTruthy, jsNumOr, hid, hs]

/-- A high-priority search's arguments produce exactly the two-clause
query, provided the viewer id is non-empty and the priority non-zero. -/
theorem high_query_eq (vid : String) (p : Rat) (hid : vid ≠ "") (hp : p ≠ 0) :
    searchIssuesQuery { assigneeId := some vid, priority := some p } =
      highPriorityQuerySpec vid p := by
  simp [searchIssuesQuery, highPriorityQuerySpec, buildSearchFilter, strTruthy, numTruthy,
    labelsTruthy, jsNumOr, hid, hp]

/-- C5 (confirmed): each "my-status" bucket issues, after resolving the
viewer, exactly one search whose filter is exactly
\x7bstatus = the bucket's literal name, assigneeId = viewer.id\x7d (for a
viewer with a non-empty id); and `linear-my-high-priority://` issues the
priority=1 search followed by the priority=2 search and returns their
concatenation — no deduplication and no single in-clause filter. -/
theorem my_status_buckets (o : Oracle) (v : ViewerInfo)
    (hv : (getViewer o).result = .ok v) (hid : v.id ≠ "") :
    (readResource o "linear-my-backlog://").calls =
      (getViewer o).calls ++ [.issues (bucketQuerySpec v.id "Backlog")] ∧
    (readResource o "linear-my-planned://").calls =
      (getViewer o).calls ++ [.issues (bucketQuerySpec v.id "Planned this Cycle")] ∧
    (readResource o "linear-my-in-progress://").calls =
      (getViewer o).calls ++ [.issues (bucketQuerySpec v.id "In Progress")] ∧
    (readResource o "linear-my-under-review://").calls =
      (getViewer o).calls ++ [.issues (bucketQuerySpec v.id "Under Review")] ∧
    (∀ l1 l2, o.issuesQuery (highPriorityQuerySpec v.id 1) = .ok l1 →
      o.issuesQuery (highPriorityQuerySpec v.id 2) = .ok l2 →
      (readResource o "linear-my-high-priority://").calls =
        (getViewer o).calls ++
          [.issues (highPriorityQuerySpec v.id 1), .issues (highPriorityQuerySpec v.id 2)] ∧
      (readResource o "linear-my-high-priority://").result =
        .ok ⟨"linear-my-high-priority://", "application/json",
          .searchResults (l1.map flattenSearchIssue ++ l2.map flattenSearchIssue)⟩) := by
  refine ⟨?_, ?_, ?_, ?_, ?_⟩
  · rw [readResource_my_backlog_eq]
    simp [Run.bind, Run.map, hv, searchIssues_calls,
      bucket_query_eq v.id "Backlog" hid (by decide)]
  · rw [readResource_my_planned_eq]
    simp [Run.bind, Run.map, hv, searchIssues_calls,
      bucket_query_eq v.id "Planned this Cycle" hid (by decide)]
  · rw [readResource_my_in_progress_eq]
    simp [Run.bind, Run.map, hv, searchIssues_calls,
      bucket_query_eq v.id "In Progress" hid (by decide)]
  · rw [readResource_my_under_review_eq]
    simp [Run.bind, Run.map, hv, searchIssues_calls,
      bucket_query_eq v.id "Under Review" hid (by decide)]
  · intro l1 l2 h1 h2
    rw [readResource_my_high_priority_eq]
    have e1 := high_query_eq v.id 1 hid (by norm_num)
    have e2 := high_query_eq v.id 2 hid (by norm_num)
    constructor <;>
      simp [Run.bind, Run.map, Except.map, hv, searchIssues, e1, e2, h1, h2]

/-- Witness for the C5 theorem: the backlog bucket under the sample
oracle. -/
theorem my_status_buckets_witness :
    (readResource o0 "linear-my-backlog://").calls =
      (getViewer o0).calls ++ [.issues (bucketQuerySpec "user-1" "Backlog")] :=
  (my_status_buckets o0 v0 rfl (by decide)).1

/-- C6, counterexample: the claim says the result is capped at the supplied
limit and that a supplied userId is used, but a supplied limit of `0` is
replaced by the default 50 (`args.limit || 50`), and a supplied but empty
userId is ignored in favour of the viewer (`args.userId && ...` is falsy). -/
theorem getUserIssues_falsy_counterexample :
    ({ limit := some 0 } : GetUserIssuesArgs).limit = some 0 ∧
    (getUserIssues o0 { limit := some 0 }).calls =
      [.viewer, .assignedIssues "user-1" 50 none] ∧
    ({ userId := some "" } : GetUserIssuesArgs).userId = some "" ∧
    (getUserIssues o0 { userId := some "" }).calls =
      [.viewer, .assignedIssues "user-1" 50 none] :=
  ⟨rfl, rfl, rfl, rfl⟩

/-- C6 (amended): `getUserIssues` resolves the user by `userId` when it is
supplied and non-empty, and the authenticated viewer when it is absent or
empty; the page size requested is the supplied limit when non-zero and 50
otherwise; and a failure of the viewer or user resolution, or of the
assigned-issues remote fetch itself (on either resolution path), is logged
(`Error in getUserIssues: ...`) and re-thrown, never converted into an
empty list. -/
theorem getUserIssues_spec (o : Oracle) (args : GetUserIssuesArgs) :
    ((args.userId = none ∨ args.userId = some "") →
      (getUserIssues o args).calls.head? = some .viewer) ∧
    (∀ u, args.userId = some u → u ≠ "" →
      (getUserIssues o args).calls.head? = some (.user u)) ∧
    (∀ uid f ia, RemoteCall.assignedIssues uid f ia ∈ (getUserIssues o args).calls →
      f = jsNumOr args.limit 50) ∧
    (∀ e, o.viewerRaw = .error e → (args.userId = none ∨ args.userId = some "") →
      (getUserIssues o args).result = .error e ∧
      (getUserIssues o args).logs = ["Error in getUserIssues: " ++ e.describe]) ∧
    (∀ u e, args.userId = some u → u ≠ "" → o.userById u = .error e →
      (getUserIssues o args).result = .error e ∧
      (getUserIssues o args).logs = ["Error in getUserIssues: " ++ e.describe]) ∧
    (∀ u e, (args.userId = none ∨ args.userId = some "") → o.viewerRaw = .ok u →
      o.assignedIssues u.id (jsNumOr args.limit 50) args.includeArchived = .error e →
      (getUserIssues o args).result = .error e ∧
      (getUserIssues o args).logs = ["Error in getUserIssues: " ++ e.describe]) ∧
    (∀ us u e, args.userId = some us → us ≠ "" → o.userById us = .ok u →
      o.assignedIssues u.id (jsNumOr args.limit 50) args.includeArchived = .error e →
      (getUserIssues o args).result = .error e ∧
      (getUserIssues o args).logs = ["Error in getUserIssues: " ++ e.describe]) := by
  refine ⟨?_, ?_, ?_, ?_, ?_, ?_, ?_⟩
  · rintro (h | h) <;>
    · rcases hv : o.viewerRaw with e | u
      · simp [getUserIssues, h, hv]
      · rcases ha : o.assignedIssues u.id (jsNumOr args.limit 50) args.includeArchived
          with e2 | (_ | l) <;> simp [getUserIssues, h, hv, ha]
  · intro u hu hne
    rcases hu2 : o.userById u with e | usr
    · simp [getUserIssues, hu, hne, hu2]
    · rcases ha : o.assignedIssues usr.id (jsNumOr args.limit 50) args.includeArchived
        with e2 | (_ | l) <;> simp [getUserIssues, hu, hne, hu2, ha]
  · intro uid f ia hmem
    rcases hu : args.userId with _ | u
    · rcases hv : o.viewerRaw with e | usr
      · simp [getUserIssues, hu, hv] at hmem
      · rcases ha : o.assignedIssues usr.id (jsNumOr args.limit 50) args.includeArchived
          with e2 | (_ | l) <;>
          (simp [getUserIssues, hu, hv, ha] at hmem; exact hmem.2.1)
    · by_cases hne : u = ""
      · subst hne
        rcases hv : o.viewerRaw with e | usr
        · simp [getUserIssues, hu, hv] at hmem
        · rcases ha : o.assignedIssues usr.id (jsNumOr args.limit 50) args.includeArchived
            with e2 | (_ | l) <;>
            (simp [getUserIssues, hu, hv, ha] at hmem; exact hmem.2.1)
      · rcases hu2 : o.userById u with e | usr
        · simp [getUserIssues, hu, hne, hu2] at hmem
        · rcases ha : o.assignedIssues usr.id (jsNumOr args.limit 50) args.includeArchived
            with e2 | (_ | l) <;>
            (simp [getUserIssues, hu, hne, hu2, ha] at hmem; exact hmem.2.1)
  · rintro e hv (h | h) <;> simp [getUserIssues, h, hv, Thrown.describe]
  · intro u e hu hne hu2
    simp [getUserIssues, hu, hne, hu2, Thrown.describe]
  · rintro u e (h | h) hv ha <;> simp [getUserIssues, h, hv, ha, Thrown.describe]
  · intro us u e hu hne hu2 ha
    simp [getUserIssues, hu, hne, hu2, ha, Thrown.describe]

/-- Witness for the amended C6 theorem: a failing viewer fetch is logged
and propagated. -/
theorem getUserIssues_spec_witness :
    (getUserIssues oViewerFail {}).result = .error (.withResponse "boom" (some 500) none) ∧
    (getUserIssues oViewerFail {}).logs =
      ["Error in getUserIssues: " ++ (Thrown.withResponse "boom" (some 500) none).describe] :=
  (getUserIssues_spec oViewerFail {}).2.2.2.1 _ rfl (Or.inl rfl)

/-- C9 (confirmed): a tool call whose arguments fail schema validation
returns the validation-error envelope — `metadata.error = true` plus one
machine-readable entry per violation carrying its path, message and the
`VALIDATION_ERROR` code — with no remote call; and every dispatch failure
of any kind is caught at the handler boundary and converted into an
error-shaped response (the handler is a total function into
`ToolResponse`), never escaping as an exception. -/
theorem tool_error_envelope (o : Oracle) (a : RawToolArgs) (name : String)
    (args : Option RawToolArgs) :
    (∀ vs, validateCreateIssue a = .error vs →
      handleToolCall o "linear_create_issue" (some a) =
        ([], .validationError (vs.map formatViolation))) ∧
    (∀ vs, validateUpdateIssue a = .error vs →
      handleToolCall o "linear_update_issue" (some a) =
        ([], .validationError (vs.map formatViolation))) ∧
    (∀ vs, validateAddComment a = .error vs →
      handleToolCall o "linear_add_comment" (some a) =
        ([], .validationError (vs.map formatViolation))) ∧
    (∀ ds, (ToolResponse.validationError ds).metadataErrorFlag = true) ∧
    (∀ v : Violation, formatViolation v = ⟨v.path, v.message, "VALIDATION_ERROR"⟩) ∧
    (∀ e, (dispatchTool o name args).result = .error e →
      (handleToolCall o name args).2.isErrorShaped = true ∧
      (handleToolCall o name args).1 = (dispatchTool o name args).calls) ∧
    (∀ t, (dispatchTool o name args).result = .ok t →
      (handleToolCall o name args).2 = .success t) := by
  refine ⟨?_, ?_, ?_, fun _ => rfl, fun _ => rfl, ?_, ?_⟩
  · intro vs h; simp [handleToolCall, dispatchTool, h]
  · intro vs h; simp [handleToolCall, dispatchTool, h]
  · intro vs h; simp [handleToolCall, dispatchTool, h]
  · intro e he
    rcases e with vs | ⟨m, st, d⟩ | m <;>
      simp [handleToolCall, he, ToolResponse.isErrorShaped]
  · intro t ht
    simp [handleToolCall, ht]

/-- Witness for the C9 theorem: `linear_create_issue` with empty arguments
fails validation with one violation per missing required field. -/
theorem tool_error_envelope_witness :
    handleToolCall o0 "linear_create_issue" (some {}) =
      ([], .validationError
        [⟨["title"], "Required", "VALIDATION_ERROR"⟩,
         ⟨["teamId"], "Required", "VALIDATION_ERROR"⟩]) :=
  (tool_error_envelope o0 {} "x" none).1
    [⟨["title"], "Required"⟩, ⟨["teamId"], "Required"⟩] rfl

/-- C10 (confirmed): reading `linear-recent-issues://` succeeds (one
`issues` query with `first: 50` ordered by most recent update, whose result
is returned as the JSON payload of issue summaries) even though the
resource appears neither among the 8 parameterless catalog entries nor
among the resource templates. -/
theorem recent_issues_resource (o : Oracle) (l : List RawIssue)
    (h : o.issuesQuery listIssuesQuery = .ok l) :
    (readResource o "linear-recent-issues://").calls = [.issues listIssuesQuery] ∧
    listIssuesQuery =
      { filter := [], first := 50, includeArchived := none, orderBy := some "updatedAt" } ∧
    (readResource o "linear-recent-issues://").result =
      .ok ⟨"linear-recent-issues://", "application/json",
        .recentIssues (l.map issueSummaryOf)⟩ ∧
    "linear-recent-issues://" ∉ listResourcesCatalog.map (fun r => r.uri) ∧
    listResourcesCatalog.length = 8 ∧
    resourceTemplatesCatalog.map (fun t => t.uriTemplate) =
      [ "linear-issue://\x7bissueId\x7d", "linear-team://\x7bteamId\x7d",
        "linear-user://\x7buserId\x7d", "linear-search://\x7bquery\x7d",
        "linear-priority://\x7blevel\x7d" ] := by
  have e : readResource o "linear-recent-issues://" =
      (listIssues o).map fun li =>
        ⟨"linear-recent-issues://", "application/json", .recentIssues li⟩ := rfl
  refine ⟨?_, rfl, ?_, by decide, rfl, rfl⟩
  · rw [e]; simp [listIssues, h, Run.map]
  · rw [e]; simp [listIssues, h, Run.map, Except.map]

/-- Witness for the C10 theorem: the sample oracle's recent issues come
back as summaries. -/
theorem recent_issues_resource_witness :
    (readResource o0 "linear-recent-issues://").result =
      .ok ⟨"linear-recent-issues://", "application/json",
        .recentIssues ([sampleIssue].map issueSummaryOf)⟩ :=
  (recent_issues_resource o0 [sampleIssue] rfl).2.2.1

end LinearMCP
